import Mathlib

/-!
Verification development for the Easy-Deploy repository.

Shallow embedding of the two core subsystems:
* the State Detector (`src/lib/config-detector.js`), and
* the Deployment Orchestrator (`DeploymentManager` with its artifact
  providers, `src/lib/providers/*.js`).

JavaScript `async` functions that can reject are embedded as `Except`-valued
functions; functions whose body wraps everything in `try/catch` are embedded
as total functions.  All filesystem / network / docker facts observed by the
code are collected in explicit environment records (`Env` for the detector,
`DeployEnv` for the orchestrator), one field per primitive operation outcome.
-/

deriving instance DecidableEq for Except

namespace EasyDeploy

/-- An unexpected runtime fault (a rejected promise / thrown exception). -/
structure Fault where
  msg : String
deriving DecidableEq, Repr

/-! ### String helpers mirroring JS `String.prototype` operations -/

/-- `leadsWith pat s` is true when `pat` occurs at the start of `s`
(character-list version of a JS prefix test). -/
def leadsWith : List Char → List Char → Bool
  | [], _ => true
  | _ :: _, [] => false
  | a :: as, b :: bs => a == b && leadsWith as bs

/-- `occursIn pat s`: `pat` occurs somewhere in `s` (JS `String.includes`). -/
def occursIn (pat : List Char) : List Char → Bool
  | [] => pat.isEmpty
  | c :: rest => leadsWith pat (c :: rest) || occursIn pat rest

/-- JS `s.includes(t)`. -/
def stringIncludes (s t : String) : Bool :=
  occursIn t.data s.data

/-- JS `s.match(/^https?:\/\//)` being non-null. -/
def startsWithHttp (s : String) : Bool :=
  leadsWith "http://".data s.data || leadsWith "https://".data s.data

/-- Drop the first `/` of a string (JS `s.replace('/', '')`). -/
def dropFirstSlash : List Char → List Char
  | [] => []
  | c :: rest => if c = '/' then rest else c :: dropFirstSlash rest

/-! ### Configuration (`easy-deploy.config.js` shape, §3 ProjectConfig) -/

/-- `config.database` — the code compares this string against
`'sqlite'` and `'postgresql'`. -/
inductive Database
  | sqlite
  | postgresql
  | other
deriving DecidableEq, Repr

structure ServerCfg where
  host : String
  port : Nat
deriving DecidableEq, Repr

/-- Immutable snapshot of the configuration file.  `source = ""` models an
absent/empty `config.source` (JS falsy).  `authGoogleEnabled` is the truth
value of `config.auth?.google?.enabled`.  The orchestrator reads
`config.server.host` unconditionally, so `server` is kept mandatory here;
the detector applies `|| 'localhost'` / `|| 3000` fallbacks on falsy
host/port, which we reproduce. -/
structure Config where
  name : String
  provider : String
  source : String
  database : Database
  authGoogleEnabled : Bool
  featuresAutoCommit : Bool
  featuresAutoDeploy : Bool
  server : ServerCfg
deriving DecidableEq, Repr

/-! ### Detector environment

One field per primitive I/O outcome observed by `ConfigDetector`.
`Except Fault _` fields are operations the code awaits without a local
`try/catch` (so a rejection surfaces to the caller unless some enclosing
`try` eats it); plain fields are operations treated as never rejecting. -/

structure ContainerInfo where
  names : List String
  id : String
  lifecycleState : String
  status : String
deriving DecidableEq, Repr

/-- Result of `fs.stat`. -/
structure Stat where
  isDirectory : Bool
deriving DecidableEq, Repr

structure Env where
  /-- `fs.pathExists(baseDir/easy-deploy.config.js)` (also `fs.existsSync`
  on the same path inside `loadConfig`). -/
  configExists : Bool
  /-- result of `require(configPath)`; `none` models a load/parse error
  (caught inside `loadConfig`, which then returns `null`). -/
  configLoad : Option Config
  /-- `docker.ping()` outcome. -/
  dockerPing : Except Fault Unit
  /-- `docker.listContainers({ all: true })` outcome (in `checkDeployment`). -/
  listContainersAll : Except Fault (List ContainerInfo)
  /-- `docker.listContainers()` outcome (running only, in `getDeploymentInfo`). -/
  listContainersRunning : Except Fault (List ContainerInfo)
  /-- `fs.pathExists(baseDir/artifacts)`. -/
  artifactsDirExists : Bool
  /-- `fs.readdir(artifactsPath)` outcome; each entry is paired with the
  outcome of the subsequent `fs.stat` on it. -/
  artifactsReaddir : Except Fault (List (String × Except Fault Stat))
  /-- `fs.pathExists(baseDir/.env)`. -/
  envFileExists : Bool
  /-- truthiness of `process.env[key]` (set and non-empty). -/
  processEnv : String → Bool
  /-- `fs.pathExists(DATABASE_PATH or baseDir/data/app.db)`. -/
  sqliteDbExists : Bool
  /-- `fs.pathExists(baseDir/package.json)`. -/
  packageJsonExists : Bool
  /-- `fs.existsSync(path.resolve(baseDir, config.source))`. -/
  sourceExists : String → Bool

/-- `loadConfig()`: returns the parsed config, or `null` when the file is
absent or loading throws (caught internally). -/
def loadConfig (env : Env) : Option Config :=
  if env.configExists then env.configLoad else none

/-- `checkConfig()`: config file existence. -/
def checkConfig (env : Env) : Bool :=
  env.configExists

/-- `checkDocker()`: `docker.ping()` inside `try/catch` — any fault is
demoted to `false`. -/
def checkDocker (env : Env) : Bool :=
  match env.dockerPing with
  | .ok _ => true
  | .error _ => false

/-- Container-name filter of `checkDeployment`:
`name.includes(config.name) || name.includes('easy-deploy')`. -/
def nameMatches (cfg : Config) (n : String) : Bool :=
  stringIncludes n cfg.name || stringIncludes n "easy-deploy"

/-- `checkDeployment()`: whole body in `try/catch` (faults demoted to
`false`); `loadConfig` returning `null` also yields `false`. -/
def checkDeployment (env : Env) : Bool :=
  match env.listContainersAll with
  | .error _ => false
  | .ok containers =>
    match loadConfig env with
    | none => false
    | some cfg =>
      (containers.filter (fun c => c.names.any (nameMatches cfg))).length > 0

structure ArtifactsCheck where
  /-- JS field `exists`. -/
  dirExists : Bool
  count : Nat
  artifacts : List String
deriving DecidableEq, Repr

/-- The `for` loop of `checkArtifacts`: stat each entry in order, keep
directories.  A `stat` rejection propagates (there is no `try/catch`). -/
def collectDirs : List (String × Except Fault Stat) → Except Fault (List String)
  | [] => .ok []
  | (name, statOutcome) :: rest =>
    match statOutcome with
    | .error f => .error f
    | .ok st =>
      match collectDirs rest with
      | .error f => .error f
      | .ok others => .ok (if st.isDirectory then name :: others else others)

/-- `checkArtifacts()`: NOT wrapped in `try/catch` — a `readdir`/`stat`
rejection propagates out of the probe. -/
def checkArtifacts (env : Env) : Except Fault ArtifactsCheck :=
  if !env.artifactsDirExists then
    .ok { dirExists := false, count := 0, artifacts := [] }
  else
    match env.artifactsReaddir with
    | .error f => .error f
    | .ok items =>
      match collectDirs items with
      | .error f => .error f
      | .ok artifacts =>
        .ok { dirExists := true, count := artifacts.length, artifacts }

structure EnvCheck where
  /-- JS field `exists` (the `.env` file). -/
  fileExists : Bool
  valid : Bool
  missing : List String
deriving DecidableEq, Repr

/-- The required-variable list built inside `checkEnv` (push order:
`SESSION_SECRET`, then the Google pair, then `DATABASE_URL`). -/
def requiredVars (cfg : Config) : List String :=
  let required := ["SESSION_SECRET"]
  let required :=
    if cfg.authGoogleEnabled then
      required ++ ["GOOGLE_CLIENT_ID", "GOOGLE_CLIENT_SECRET"]
    else required
  if cfg.database = .postgresql then required ++ ["DATABASE_URL"] else required

/-- `checkEnv()`: when `.env` is absent, returns
`{exists:false, valid:false, missing:[]}`; otherwise filters the required
list against `process.env` (never against the `.env` file contents). -/
def checkEnv (env : Env) : EnvCheck :=
  if !env.envFileExists then
    { fileExists := false, valid := false, missing := [] }
  else
    match loadConfig env with
    | none => { fileExists := true, valid := true, missing := [] }
    | some cfg =>
      let missing := (requiredVars cfg).filter (fun key => !env.processEnv key)
      { fileExists := true, valid := missing.isEmpty, missing }

/-- `checkDatabase()`. -/
def checkDatabase (env : Env) : Bool :=
  match loadConfig env with
  | none => false
  | some cfg =>
    match cfg.database with
    | .sqlite => env.sqliteDbExists
    | .postgresql => env.processEnv "DATABASE_URL"
    | .other => false

structure Checks where
  configExists : Bool
  dockerRunning : Bool
  artifactsExist : ArtifactsCheck
  deploymentRunning : Bool
  envValid : EnvCheck
  databaseExists : Bool
deriving DecidableEq, Repr

/-- The `checks` object assembled at the top of `detect()` (sequential
awaits; only the artifacts probe can reject). -/
def computeChecks (env : Env) : Except Fault Checks :=
  match checkArtifacts env with
  | .error f => .error f
  | .ok artifactsExist =>
    .ok { configExists := checkConfig env
          dockerRunning := checkDocker env
          artifactsExist := artifactsExist
          deploymentRunning := checkDeployment env
          envValid := checkEnv env
          databaseExists := checkDatabase env }

/-! ### Error / fix derivation (`detectErrors`, `suggestFixes`) -/

inductive ErrorKind
  | dockerNotRunning
  | missingEnvVars
  | sourceNotFound
deriving DecidableEq, Repr

inductive Severity
  | critical
  | high
deriving DecidableEq, Repr

structure DetectedError where
  kind : ErrorKind
  severity : Severity
  message : String
  description : String
deriving DecidableEq, Repr

/-- `detectErrors(checks)`: fixed evaluation order docker → env → source.
The env entry fires only when `envValid.valid` is false AND the missing
list is non-empty; the source entry only when a config loads and its
`source` field is truthy (non-empty) but the path does not exist. -/
def detectErrors (env : Env) (checks : Checks) : List DetectedError :=
  let dockerErrors : List DetectedError :=
    if !checks.dockerRunning then
      [{ kind := .dockerNotRunning
         severity := .critical
         message := "Docker is not running"
         description := "Docker Desktop needs to be started before deployment" }]
    else []
  let envErrors : List DetectedError :=
    if !checks.envValid.valid && checks.envValid.missing.length > 0 then
      [{ kind := .missingEnvVars
         severity := .high
         message := "Missing environment variables: " ++
           String.intercalate ", " checks.envValid.missing
         description := "Required environment variables are not set in .env file" }]
    else []
  let sourceErrors : List DetectedError :=
    match loadConfig env with
    | none => []
    | some cfg =>
      if cfg.source != "" && !env.sourceExists cfg.source then
        [{ kind := .sourceNotFound
           severity := .high
           message := "Source not found: " ++ cfg.source
           description := "The configured artifact source directory does not exist" }]
      else []
  dockerErrors ++ envErrors ++ sourceErrors

structure SuggestedFix where
  forError : ErrorKind
  action : String
  description : String
  autoFixable : Bool
  instructions : List String
deriving DecidableEq, Repr

/-- The `switch` of `suggestFixes`, one fixed fix per error kind. -/
def fixFor : ErrorKind → SuggestedFix
  | .dockerNotRunning =>
    { forError := .dockerNotRunning
      action := "start-docker"
      description := "Start Docker Desktop"
      autoFixable := false
      instructions :=
        ["Open Docker Desktop application", "Wait for Docker to start",
         "Retry deployment"] }
  | .missingEnvVars =>
    { forError := .missingEnvVars
      action := "update-env"
      description := "Update .env file with missing variables"
      autoFixable := true
      instructions :=
        ["Edit .env file", "Add missing variables", "Restart application"] }
  | .sourceNotFound =>
    { forError := .sourceNotFound
      action := "update-source"
      description := "Update source path or create artifacts directory"
      autoFixable := true
      instructions :=
        ["Check artifact source path in config",
         "Create artifacts directory if needed", "Add your application files"] }

def suggestFixes (errors : List DetectedError) : List SuggestedFix :=
  errors.map (fun e => fixFor e.kind)

/-! ### First-launch suggestions and deployment info -/

inductive Suggestion
  | nodejsProject
  | artifactsFound (artifacts : List String)
deriving DecidableEq, Repr

/-- `getFirstLaunchSuggestions()`: reads `package.json` presence, then the
artifacts directory (same `readdir`/`stat` primitives as `checkArtifacts`,
again with no `try/catch`). -/
def getFirstLaunchSuggestions (env : Env) : Except Fault (List Suggestion) :=
  let base : List Suggestion :=
    if env.packageJsonExists then [.nodejsProject] else []
  if env.artifactsDirExists then
    match env.artifactsReaddir with
    | .error f => .error f
    | .ok items =>
      match collectDirs items with
      | .error f => .error f
      | .ok dirs =>
        .ok (if dirs.length > 0 then base ++ [.artifactsFound dirs] else base)
  else
    .ok base

structure ContainerSummary where
  id : String
  name : String
  lifecycleState : String
  uptime : String
deriving DecidableEq, Repr

structure DeploymentInfo where
  containerCount : Nat
  containers : List ContainerSummary
  url : String
deriving DecidableEq, Repr

/-- `container.Names[0].replace('/', '')` etc.; an empty `Names` array makes
the JS access throw (caught by `getDeploymentInfo`'s `try`). -/
def summarizeContainer (c : ContainerInfo) : Except Fault ContainerSummary :=
  match c.names with
  | [] => .error { msg := "TypeError: cannot read Names[0]" }
  | n :: _ =>
    .ok { id := String.mk (c.id.data.take 12)
          name := String.mk (dropFirstSlash n.data)
          lifecycleState := c.lifecycleState
          uptime := c.status }

def summarizeAll : List ContainerInfo → Except Fault (List ContainerSummary)
  | [] => .ok []
  | c :: rest =>
    match summarizeContainer c with
    | .error f => .error f
    | .ok s =>
      match summarizeAll rest with
      | .error f => .error f
      | .ok others => .ok (s :: others)

/-- `getDeploymentInfo()`: whole body in `try/catch` returning `null` on any
fault (including `config` being `null`, which makes `config.name` throw). -/
def getDeploymentInfo (env : Env) : Option DeploymentInfo :=
  match loadConfig env with
  | none => none
  | some cfg =>
    match env.listContainersRunning with
    | .error _ => none
    | .ok containers =>
      let projectContainers :=
        containers.filter (fun c => c.names.any (fun n => stringIncludes n cfg.name))
      match summarizeAll projectContainers with
      | .error _ => none
      | .ok summaries =>
        let host := if cfg.server.host = "" then "localhost" else cfg.server.host
        let port := if cfg.server.port = 0 then 3000 else cfg.server.port
        some { containerCount := projectContainers.length
               containers := summaries
               url := "http://" ++ host ++ ":" ++ toString port }

/-! ### `detect()` -/

inductive StateType
  | firstLaunch
  | configuredNotDeployed
  | running
  | error
deriving DecidableEq, Repr

/-- The detector's state object.  Optional fields model JS fields that are
only assigned in some branches (`suggestions` in the first-launch branch,
`config`/`deployment` in the other branches; the inner `Option Config` is
`loadConfig`'s possible `null`). -/
structure State where
  type : StateType
  checks : Checks
  message : String
  suggestions : Option (List Suggestion) := none
  config : Option (Option Config) := none
  deployment : Option (Option DeploymentInfo) := none
  errors : List DetectedError := []
  fixes : List SuggestedFix := []
deriving DecidableEq, Repr

/-- The base-state classification chain of `detect()` (lines 32–54).  The
three guards are exhaustive: the final JS guard `checks.deploymentRunning`
is exactly the complement of the first two. -/
def classifyState (env : Env) (checks : Checks) : Except Fault State :=
  if !checks.configExists then
    match getFirstLaunchSuggestions env with
    | .error f => .error f
    | .ok suggestions =>
      .ok { type := .firstLaunch
            checks
            message := "No configuration found. Starting setup..."
            suggestions := some suggestions }
  else if checks.configExists && !checks.deploymentRunning then
    .ok { type := .configuredNotDeployed
          checks
          message := "Configuration found but not deployed"
          config := some (loadConfig env) }
  else
    .ok { type := .running
          checks
          message := "Deployment is running"
          config := some (loadConfig env)
          deployment := some (getDeploymentInfo env) }

/-- The error-overlay step of `detect()` (lines 56–62): when any pathology
is found the state's `type` field is overwritten in place with `'error'`
and `errors`/`fixes` are attached; all other fields are left as the base
classification set them. -/
def applyErrors (env : Env) (checks : Checks) (base : State) : State :=
  let errors := detectErrors env checks
  if errors.length > 0 then
    { base with type := .error, errors := errors, fixes := suggestFixes errors }
  else base

/-- `ConfigDetector.detect()`. -/
def detect (env : Env) : Except Fault State :=
  match computeChecks env with
  | .error f => .error f
  | .ok checks =>
    match classifyState env checks with
    | .error f => .error f
    | .ok base => .ok (applyErrors env checks base)

/-! ### Spec-side base-state recovery (§3 `Error.underlying`)

The spec's `Error` variant carries an `underlying` base state.  The code
instead overwrites `state.type` in place, but keeps every field the base
classification produced (`message`, `checks`, and the branch-specific
payload).  `classifyBase` restates the classification chain on the retained
`checks`; `recoverBase` reads the base variant back off a returned state
from the branch-specific payload fields alone. -/

inductive BaseState
  | firstLaunch
  | configuredNotDeployed
  | running
deriving DecidableEq, Repr

def classifyBase (checks : Checks) : BaseState :=
  if !checks.configExists then .firstLaunch
  else if !checks.deploymentRunning then .configuredNotDeployed
  else .running

def recoverBase (s : State) : Option BaseState :=
  if s.suggestions.isSome then some .firstLaunch
  else if s.deployment.isSome then some .running
  else if s.config.isSome then some .configuredNotDeployed
  else none

/-- The `type` string a base state displays when no pathology overlays it. -/
def BaseState.toStateType : BaseState → StateType
  | .firstLaunch => .firstLaunch
  | .configuredNotDeployed => .configuredNotDeployed
  | .running => .running

/-! ### Deployment Orchestrator (`DeploymentManager`) -/

/-- Typed deployment errors (the `Error` objects thrown by the pipeline and
its collaborators; each carries the data its JS message interpolates). -/
inductive DError
  | dockerUnavailable (msg : String)
  /-- `Missing required environment variables: <missing.join(', ')>` —
  carries the full missing list. -/
  | missingEnvVars (missing : List String)
  /-- `Artifact source not found: <path>` (step 1, local provider). -/
  | artifactSourceNotFound (source : String)
  /-- `Unable to detect provider for source: <source>`. -/
  | unknownProviderSource (source : String)
  /-- `Unknown provider: <name>`. -/
  | unknownProvider (name : String)
  /-- `Artifact not downloaded yet. Call fetch() first.` (URL provider). -/
  | artifactNotDownloadedYet
  /-- `Downloaded path does not exist: <path>` (URL provider). -/
  | downloadedPathMissing (path : String)
  /-- `Source path not found: <path>` / `Source path does not exist: <path>`
  (local provider fetch/validate). -/
  | sourcePathNotFound (path : String)
  | dbInitFailed (msg : String)
  | dockerGenFailed (msg : String)
  | buildFailed (msg : String)
  | startFailed (msg : String)
  /-- `Server returned status <status>` (verification, 5xx). -/
  | serverReturnedStatus (status : Nat)
  /-- `Containers started but application is not responding` (failed retry). -/
  | appNotResponding
  /-- any other network-level rejection of the health probe, rethrown. -/
  | networkError (code : String)
  /-- `Commit failed: <msg>` (GitManager.commit rethrows). -/
  | commitFailed (msg : String)
  | stopFailed (msg : String)
  | otherFailure (msg : String)
deriving DecidableEq, Repr

structure Artifact where
  path : String
  type : String
deriving DecidableEq, Repr

/-- Outcome of one `axios` request: an HTTP response (which resolves when
the request's `validateStatus` accepts its status) or a rejection without a
response (connection refused, timeout, DNS, …) carrying `error.code`. -/
inductive AxiosOutcome
  | resolved (status : Nat)
  | netError (code : Option String)
deriving DecidableEq, Repr

structure RollbackState where
  timestamp : Nat
  containers : List ContainerInfo
  commitHash : Option String
deriving DecidableEq, Repr

/-- Environment of one deployment run: one field per collaborator outcome.
Collaborators that are thin wrappers out of the claims' scope (database
schema init, docker file generation, image build, container start/stop,
the Claude provider, the local copy and type detection, the URL download)
are abstracted to their outcome. -/
structure DeployEnv where
  /-- whether `docker.ping()` succeeds inside `docker.checkDocker()` (step 1);
  on a rejected ping `checkDocker` throws the fixed message
  `Docker daemon is not running. Please start Docker and try again.` -/
  dockerPingOk : Bool
  /-- truthiness of `process.env[key]`. -/
  processEnv : String → Bool
  /-- `fs.pathExists(path.resolve(config.source))` in step 1 (local provider
  source check). -/
  localSourceExists : Bool
  /-- `fs.pathExists` as used by provider auto-detection and providers. -/
  pathExists : String → Bool
  /-- the Claude provider's validate+fetch+prepare, abstracted. -/
  claudeOutcome : Except DError Artifact
  /-- the local provider's copy + `detectType`, abstracted (runs after its
  existence checks). -/
  localFetchOutcome : Except DError Artifact
  /-- the URL provider's download + type detection, abstracted. -/
  urlFetchOutcome : Except DError Artifact
  /-- step 3 `database.initialize()`. -/
  dbInitialize : Except DError Unit
  /-- step 4 `docker.generateDockerfile(...)`. -/
  generateDockerfile : Except DError Unit
  /-- step 4 `docker.generateComposeFile(...)`. -/
  generateComposeFile : Except DError Unit
  /-- step 5 `docker.buildImage(...)`. -/
  buildImage : Except DError Unit
  /-- `docker.getContainerStatus()` inside `saveRollbackState`. -/
  containerStatusOutcome : Except DError (List ContainerInfo)
  /-- `git.getCurrentCommit()` (catches internally, `null` on failure). -/
  currentCommit : Option String
  /-- `Date.now()` at capture time. -/
  now : Nat
  /-- step 7 `docker.startContainers()`. -/
  startContainers : Except DError Unit
  /-- first health probe: `axios.get(url, {timeout, validateStatus: () => true})`
  — every HTTP response resolves; only network-level errors reject. -/
  healthProbe : AxiosOutcome
  /-- retry probe: `axios.get(baseUrl, {timeout: 5000})` with axios's
  default `validateStatus` (2xx resolves, anything else rejects). -/
  retryProbe : AxiosOutcome
  /-- step 9 `git.commit(...)`: `null` when there was nothing to commit,
  otherwise the commit message; rethrows `Commit failed: …` on error. -/
  commitOutcome : Except DError (Option String)
  /-- `docker.stopContainers()` inside `rollback`. -/
  stopContainers : Except DError Unit

/-- The required-variable list built inside `validateEnvironment` (step 1).
Unlike the detector's `requiredVars`, it has no `DATABASE_URL` clause. -/
def orchestratorRequired (cfg : Config) : List String :=
  let required := ["SESSION_SECRET"]
  if cfg.authGoogleEnabled then
    required ++ ["GOOGLE_CLIENT_ID", "GOOGLE_CLIENT_SECRET"]
  else required

/-- Step 1, `validateEnvironment()`: docker check, then the env-var check
throwing one error listing every missing variable, then (local provider
only) the source-existence check. -/
def validateEnvironment (cfg : Config) (env : DeployEnv) : Except DError Unit :=
  if !env.dockerPingOk then
    .error (.dockerUnavailable
      "Docker daemon is not running. Please start Docker and try again.")
  else
    let missing := (orchestratorRequired cfg).filter (fun key => !env.processEnv key)
    if missing.length > 0 then
      .error (.missingEnvVars missing)
    else if cfg.provider = "local" then
      if !env.localSourceExists then .error (.artifactSourceNotFound cfg.source)
      else .ok ()
    else .ok ()

/-! #### Provider selection (`src/lib/providers/index.js`) -/

inductive ProviderKind
  | claude
  | local
  | url
deriving DecidableEq, Repr

/-- `detectProvider(source)`: URL-shaped → claude (for claude.ai /
anthropic.com hosts) or url; existing local path → local; else throws. -/
def detectProviderKind (env : DeployEnv) (source : String) : Except DError ProviderKind :=
  if startsWithHttp source then
    if stringIncludes source "claude.ai" || stringIncludes source "anthropic.com" then
      .ok .claude
    else
      .ok .url
  else if env.pathExists source then
    .ok .local
  else
    .error (.unknownProviderSource source)

/-- `getProvider(name)`: fixed name table, unknown name throws. -/
def getProviderKind (name : String) : Except DError ProviderKind :=
  if name = "claude" then .ok .claude
  else if name = "local" then .ok .local
  else if name = "url" then .ok .url
  else .error (.unknownProvider name)

/-- `createProvider(config)`: explicit `config.provider` wins; `'auto'`
(also the default when absent) sniffs the source string. -/
def createProviderKind (cfg : Config) (env : DeployEnv) : Except DError ProviderKind :=
  if cfg.provider = "auto" then detectProviderKind env cfg.source
  else getProviderKind cfg.provider

/-! #### URL provider (`src/lib/providers/url.js`) -/

/-- Mutable state of a `URLProvider` instance: `downloadedPath` starts
`null` in the constructor and is only assigned inside `fetch()`. -/
structure URLProviderState where
  downloadedPath : Option String
deriving DecidableEq, Repr

def URLProvider.init : URLProviderState :=
  { downloadedPath := none }

/-- `URLProvider.validate()`: throws whenever `downloadedPath` has not been
set, i.e. whenever `fetch()` has not yet run on this instance. -/
def URLProvider.validate (env : DeployEnv) (st : URLProviderState) : Except DError Unit :=
  match st.downloadedPath with
  | none => .error .artifactNotDownloadedYet
  | some p =>
    if env.pathExists p then .ok ()
    else .error (.downloadedPathMissing p)

/-- `URLProvider.fetch()` (download dispatch abstracted): on success sets
`downloadedPath` to the destination directory. -/
def URLProvider.fetch (env : DeployEnv) : Except DError (URLProviderState × Artifact) :=
  match env.urlFetchOutcome with
  | .error e => .error e
  | .ok a => .ok ({ downloadedPath := some a.path }, a)

/-! #### Local provider (`src/lib/providers/local.js`) -/

/-- `LocalProvider.validate()`: source path must exist. -/
def LocalProvider.validate (cfg : Config) (env : DeployEnv) : Except DError Unit :=
  if env.pathExists cfg.source then .ok ()
  else .error (.sourcePathNotFound cfg.source)

/-- `LocalProvider.fetch()`: re-checks existence then copies and detects the
type (copy/type outcomes abstracted). -/
def LocalProvider.fetch (cfg : Config) (env : DeployEnv) : Except DError Artifact :=
  if !env.pathExists cfg.source then .error (.sourcePathNotFound cfg.source)
  else env.localFetchOutcome

/-- Step 2, `fetchArtifact()`: create the provider, then `validate()`, then
`fetch()` (then `prepare()` where the provider has one — only Claude does,
and it is folded into `claudeOutcome`). -/
def fetchArtifact (cfg : Config) (env : DeployEnv) : Except DError Artifact :=
  match createProviderKind cfg env with
  | .error e => .error e
  | .ok .claude => env.claudeOutcome
  | .ok .local =>
    match LocalProvider.validate cfg env with
    | .error e => .error e
    | .ok _ => LocalProvider.fetch cfg env
  | .ok .url =>
    -- a fresh instance is created per run, so validate() sees the
    -- constructor's downloadedPath = null
    match URLProvider.validate env URLProvider.init with
    | .error e => .error e
    | .ok _ =>
      match URLProvider.fetch env with
      | .error e => .error e
      | .ok (_, a) => .ok a

/-! #### Step 8, `verifyDeployment()` -/

/-- axios's default `validateStatus`: `status >= 200 && status < 300`. -/
def axiosDefaultAccepts (status : Nat) : Bool :=
  200 ≤ status && status < 300

/-- `verifyDeployment()`.  The first request uses `validateStatus: () => true`
so every HTTP response resolves: 200 and any status `< 500` succeed, a 5xx
becomes a thrown plain `Error` (which carries neither `response` nor `code`,
so the catch's 404 and ECONNREFUSED branches cannot match it — no retry).
In the catch, a network error with code `ECONNREFUSED` triggers exactly one
retry against the base URL with default status validation; any rejection of
the retry (including non-2xx statuses) becomes the fatal
`Containers started but application is not responding` error; all other
rejections of the first request are rethrown. -/
def verifyDeployment (env : DeployEnv) : Except DError Unit :=
  match env.healthProbe with
  | .resolved status =>
    if status == 200 then .ok ()
    else if status < 500 then .ok ()
    else .error (.serverReturnedStatus status)
  | .netError code =>
    -- `error.response?.status === 404` is impossible here: rejections of a
    -- request that accepts all statuses carry no HTTP response
    if code == some "ECONNREFUSED" then
      match env.retryProbe with
      | .resolved status =>
        if axiosDefaultAccepts status then .ok () else .error .appNotResponding
      | .netError _ => .error .appNotResponding
    else
      .error (.networkError ((code.getD "")))

/-! #### Rollback capture, rollback, and `run()` -/

/-- Step 6, `saveRollbackState()`: whole body in `try/catch`; a failure to
snapshot returns `null` (capture failure is non-fatal). -/
def saveRollbackState (env : DeployEnv) : Option RollbackState :=
  match env.containerStatusOutcome with
  | .error _ => none
  | .ok status =>
    some { timestamp := env.now, containers := status, commitHash := env.currentCommit }

/-- `rollback()`: stops containers; its own failure is caught and logged,
never rethrown.  Returns whether the stop succeeded. -/
def rollback (env : DeployEnv) : Bool :=
  match env.stopContainers with
  | .ok _ => true
  | .error _ => false

/-- Steps 1–5 of `run()` (everything before rollback-state capture). -/
def preCapture (cfg : Config) (env : DeployEnv) : Except DError Artifact :=
  match validateEnvironment cfg env with
  | .error e => .error e
  | .ok _ =>
    match fetchArtifact cfg env with
    | .error e => .error e
    | .ok artifact =>
      match env.dbInitialize with
      | .error e => .error e
      | .ok _ =>
        match env.generateDockerfile with
        | .error e => .error e
        | .ok _ =>
          match env.generateComposeFile with
          | .error e => .error e
          | .ok _ =>
            match env.buildImage with
            | .error e => .error e
            | .ok _ => .ok artifact

/-- Steps 7–9 of `run()` (everything after rollback-state capture): start
containers, verify, and — only when `features.autoCommit` is set — the git
commit, awaited inside the same `try` as the rest of the pipeline. -/
def postCapture (cfg : Config) (env : DeployEnv) : Except DError Unit :=
  match env.startContainers with
  | .error e => .error e
  | .ok _ =>
    match verifyDeployment env with
    | .error e => .error e
    | .ok _ =>
      if cfg.featuresAutoCommit then
        match env.commitOutcome with
        | .error e => .error e
        | .ok _ => .ok ()
      else .ok ()

structure DeploymentResult where
  success : Bool
  artifact : Artifact
  url : String
deriving DecidableEq, Repr

/-- Observable outcome of one `run()` call: the returned result or thrown
error, the rollback state captured at step 6, how many times `rollback()`
was invoked by the catch block, and (when invoked) whether it succeeded. -/
structure RunOutcome where
  result : Except DError DeploymentResult
  rollbackState : Option RollbackState
  rollbackAttempts : Nat
  rollbackSucceeded : Option Bool
deriving DecidableEq, Repr

/-- `DeploymentManager.run()`.  `rollbackState` starts `null` in the
constructor; the catch block invokes `rollback()` exactly once when (and
only when) `rollbackState` is non-null, then rethrows the original error. -/
def run (cfg : Config) (env : DeployEnv) : RunOutcome :=
  match preCapture cfg env with
  | .error e =>
    -- failure in steps 1–5: rollbackState is still null → no rollback
    { result := .error e
      rollbackState := none
      rollbackAttempts := 0
      rollbackSucceeded := none }
  | .ok artifact =>
    let rb := saveRollbackState env
    match postCapture cfg env with
    | .ok _ =>
      { result := .ok
          { success := true
            artifact
            url := "http://" ++ cfg.server.host ++ ":" ++ toString cfg.server.port }
        rollbackState := rb
        rollbackAttempts := 0
        rollbackSucceeded := none }
    | .error e =>
      match rb with
      | some _ =>
        { result := .error e
          rollbackState := rb
          rollbackAttempts := 1
          rollbackSucceeded := some (rollback env) }
      | none =>
        { result := .error e
          rollbackState := none
          rollbackAttempts := 0
          rollbackSucceeded := none }

/-! ### Concrete fixtures for witnesses and counterexamples -/

/-- A defaulted dummy state (only used as the unreachable fallback when
extracting the state out of a known-successful `detect` run). -/
def dummyState : State :=
  { type := .error
    checks :=
      { configExists := false
        dockerRunning := false
        artifactsExist := { dirExists := false, count := 0, artifacts := [] }
        deploymentRunning := false
        envValid := { fileExists := false, valid := false, missing := [] }
        databaseExists := false }
    message := "" }

/-- A representative local-provider project configuration. -/
def localCfg : Config :=
  { name := "demo"
    provider := "local"
    source := "./my-app"
    database := .sqlite
    authGoogleEnabled := false
    featuresAutoCommit := false
    featuresAutoDeploy := false
    server := { host := "localhost", port := 3000 } }

def faultA : Fault :=
  { msg := "connect ECONNREFUSED /var/run/docker.sock" }

/-- Detection environment: configuration present, docker daemon unreachable,
`.env` present with `SESSION_SECRET` set, everything else quiet. -/
def envC1 : Env :=
  { configExists := true
    configLoad := some localCfg
    dockerPing := .error faultA
    listContainersAll := .error faultA
    listContainersRunning := .error faultA
    artifactsDirExists := false
    artifactsReaddir := .ok []
    envFileExists := true
    processEnv := fun key => key == "SESSION_SECRET"
    sqliteDbExists := false
    packageJsonExists := true
    sourceExists := fun _ => true }

def stateC1 : State :=
  match detect envC1 with
  | .ok s => s
  | .error _ => dummyState

/-- Detection environment: no configuration file, docker daemon unreachable. -/
def envC2 : Env :=
  { envC1 with configExists := false, configLoad := none }

def stateC2 : State :=
  match detect envC2 with
  | .ok s => s
  | .error _ => dummyState

def faultC7 : Fault :=
  { msg := "EACCES: permission denied, scandir artifacts" }

/-- Detection environment whose artifacts `readdir` (and docker calls)
reject. -/
def envC7 : Env :=
  { envC1 with
    dockerPing := .error faultC7
    listContainersAll := .error faultC7
    artifactsDirExists := true
    artifactsReaddir := .error faultC7 }

/-- Detection environment: `.env` file absent, but a config requiring OAuth
and a networked database is present and none of the variables are set in the
process environment. -/
def envC10 : Env :=
  { envC1 with
    dockerPing := .ok ()
    listContainersAll := .ok []
    listContainersRunning := .ok []
    configLoad := some
      { localCfg with authGoogleEnabled := true, database := .postgresql }
    envFileExists := false
    processEnv := fun _ => false }

def stateC10 : State :=
  match detect envC10 with
  | .ok s => s
  | .error _ => dummyState

/-- Deployment environment in which every collaborator succeeds. -/
def happyDeployEnv : DeployEnv :=
  { dockerPingOk := true
    processEnv := fun _ => true
    localSourceExists := true
    pathExists := fun _ => true
    claudeOutcome := .ok { path := "artifacts/claude-app", type := "react" }
    localFetchOutcome := .ok { path := "artifacts/demo", type := "node" }
    urlFetchOutcome := .ok { path := "artifacts/remote-artifact", type := "zip" }
    dbInitialize := .ok ()
    generateDockerfile := .ok ()
    generateComposeFile := .ok ()
    buildImage := .ok ()
    containerStatusOutcome := .ok []
    currentCommit := some "abc1234"
    now := 1700000000000
    startContainers := .ok ()
    healthProbe := .resolved 200
    retryProbe := .resolved 200
    commitOutcome := .ok (some "deploy: demo v1.0.0")
    stopContainers := .ok () }

/-- Auto-commit configuration for the commit-failure scenario. -/
def cfgC3 : Config :=
  { localCfg with featuresAutoCommit := true }

/-- All steps succeed except the step-9 commit. -/
def envC3 : DeployEnv :=
  { happyDeployEnv with
    commitOutcome := .error (.commitFailed "pre-commit hook failed") }

/-- Networked-database configuration (OAuth off). -/
def cfgPg : Config :=
  { localCfg with database := .postgresql }

/-- OAuth-enabled, networked-database configuration. -/
def cfgC4 : Config :=
  { localCfg with authGoogleEnabled := true, database := .postgresql }

/-- Only `SESSION_SECRET` present in the process environment. -/
def envC4 : DeployEnv :=
  { happyDeployEnv with processEnv := fun key => key == "SESSION_SECRET" }

/-- Verification fails with a 503 after a successful capture, and the
rollback's container stop itself fails. -/
def envC6 : DeployEnv :=
  { happyDeployEnv with
    healthProbe := .resolved 503
    stopContainers := .error (.stopFailed "docker-compose down failed") }

/-- Explicit URL-provider configuration. -/
def cfgC9 : Config :=
  { localCfg with provider := "url", source := "https://example.com/app.zip" }

/-! ### Structural lemmas about `detect` -/

theorem detect_eq_ok {env : Env} {s : State} (h : detect env = Except.ok s) :
    ∃ checks base, computeChecks env = Except.ok checks ∧
      classifyState env checks = Except.ok base ∧
      s = applyErrors env checks base := by
  unfold detect at h
  cases h1 : computeChecks env with
  | error f => rw [h1] at h; cases h
  | ok checks =>
    simp only [h1] at h
    cases h2 : classifyState env checks with
    | error f =>
      simp only [h2] at h
      cases h
    | ok base =>
      simp only [h2, Except.ok.injEq] at h
      exact ⟨checks, base, rfl, h2, h.symm⟩

theorem computeChecks_fields {env : Env} {checks : Checks}
    (h : computeChecks env = Except.ok checks) :
    checks.configExists = checkConfig env ∧
      checks.dockerRunning = checkDocker env ∧
      checks.deploymentRunning = checkDeployment env ∧
      checks.envValid = checkEnv env := by
  unfold computeChecks at h
  cases h1 : checkArtifacts env with
  | error f => rw [h1] at h; cases h
  | ok a =>
    rw [h1] at h
    injection h with h
    cases h
    exact ⟨rfl, rfl, rfl, rfl⟩

theorem classifyState_shape {env : Env} {checks : Checks} {base : State}
    (h : classifyState env checks = Except.ok base) :
    base.checks = checks ∧ base.errors = [] ∧
      recoverBase base = some (classifyBase checks) ∧
      base.type = (classifyBase checks).toStateType := by
  unfold classifyState at h
  cases hc : checks.configExists with
  | false =>
    cases hs : getFirstLaunchSuggestions env with
    | error f => simp [hc, hs] at h
    | ok sugg =>
      simp only [hc, hs, Bool.not_false, if_true] at h
      injection h with h
      cases h
      exact ⟨rfl, rfl, by simp [recoverBase, classifyBase, hc],
        by simp [classifyBase, hc, BaseState.toStateType]⟩
  | true =>
    cases hd : checks.deploymentRunning with
    | false =>
      simp only [hc, hd, Bool.not_true, Bool.not_false, Bool.true_and,
        if_false, if_true] at h
      injection h with h
      cases h
      exact ⟨rfl, rfl, by simp [recoverBase, classifyBase, hc, hd],
        by simp [classifyBase, hc, hd, BaseState.toStateType]⟩
    | true =>
      simp only [hc, hd, Bool.not_true, Bool.true_and, if_false] at h
      injection h with h
      cases h
      exact ⟨rfl, rfl, by simp [recoverBase, classifyBase, hc, hd],
        by simp [classifyBase, hc, hd, BaseState.toStateType]⟩

theorem applyErrors_of_empty {env : Env} {checks : Checks} (base : State)
    (h : detectErrors env checks = []) :
    applyErrors env checks base = base := by
  unfold applyErrors
  simp [h]

theorem applyErrors_of_ne {env : Env} {checks : Checks} (base : State)
    (h : detectErrors env checks ≠ []) :
    applyErrors env checks base =
      { base with
        type := .error
        errors := detectErrors env checks
        fixes := suggestFixes (detectErrors env checks) } := by
  unfold applyErrors
  have hl : (detectErrors env checks).length > 0 := List.length_pos.mpr h
  simp [hl]

theorem recoverBase_applyErrors (env : Env) (checks : Checks) (base : State) :
    recoverBase (applyErrors env checks base) = recoverBase base := by
  by_cases hde : detectErrors env checks = []
  · rw [applyErrors_of_empty base hde]
  · rw [applyErrors_of_ne base hde]
    rfl

theorem applyErrors_checks (env : Env) (checks : Checks) (base : State) :
    (applyErrors env checks base).checks = base.checks := by
  by_cases hde : detectErrors env checks = []
  · rw [applyErrors_of_empty base hde]
  · rw [applyErrors_of_ne base hde]


theorem detectErrors_ne_of_docker (env : Env) {checks : Checks}
    (h : checks.dockerRunning = false) : detectErrors env checks ≠ [] := by
  intro hcontra
  unfold detectErrors at hcontra
  simp [h, List.append_eq_nil] at hcontra

/-- The only way a `missing-env-vars` entry appears in `detectErrors` is a
non-empty `envValid.missing` list. -/
theorem mem_detectErrors_missing {env : Env} {checks : Checks} {e : DetectedError}
    (he : e ∈ detectErrors env checks) (hk : e.kind = ErrorKind.missingEnvVars) :
    0 < checks.envValid.missing.length := by
  simp only [detectErrors, List.mem_append] at he
  rcases he with (he | he) | he
  · split at he
    · simp at he
      rw [he] at hk
      cases hk
    · simp at he
  · split at he
    next hcond =>
      simp only [Bool.and_eq_true, decide_eq_true_eq] at hcond
      exact hcond.2
    next => simp at he
  · split at he
    · simp at he
    · split at he
      · simp at he
        rw [he] at hk
        cases hk
      · simp at he

/-! ### Claims -/

/-- C1: for every detection pass in which at least one pathology is found,
the returned state carries type `error` while retaining every field the base
classification produced, so exactly one base-state variant (`FirstLaunch`,
`ConfiguredNotDeployed` or `Running`) is recoverable from the returned
state, and it agrees with re-classifying the retained checks. -/
theorem C1_error_overlay_retains_base (env : Env) (s : State)
    (hdet : detect env = Except.ok s) (herr : s.errors ≠ []) :
    s.type = StateType.error ∧ recoverBase s = some (classifyBase s.checks) := by
  obtain ⟨checks, base, h1, h2, h3⟩ := detect_eq_ok hdet
  obtain ⟨hbc, hbe, hbr, hbt⟩ := classifyState_shape h2
  by_cases hde : detectErrors env checks = []
  · rw [h3, applyErrors_of_empty base hde] at herr
    exact absurd hbe herr
  · subst h3
    refine ⟨?_, ?_⟩
    · rw [applyErrors_of_ne base hde]
    · rw [recoverBase_applyErrors, applyErrors_checks, hbc, hbr]

/-- C1 witness: a concrete detection pass (config present, daemon down). -/
theorem C1_witness :
    stateC1.type = StateType.error ∧
      recoverBase stateC1 = some (classifyBase stateC1.checks) :=
  C1_error_overlay_retains_base envC1 stateC1 rfl (by decide)

/-- C2 counterexample: in a concrete environment with no configuration file
but the docker daemon unreachable, `detect` returns the `error` type rather
than `first-launch`, refuting "returns FirstLaunch regardless of container
daemon state". -/
theorem C2_counterexample :
    checkConfig envC2 = false ∧
      (detect envC2).map State.type = Except.ok StateType.error := by
  exact ⟨rfl, rfl⟩

/-- C2 (amended): with no configuration file present, the base
classification is always FirstLaunch and is recoverable from the returned
state; the returned type itself is `first-launch` when no pathology fires
and `error` otherwise — in particular it is `error` whenever the daemon
probe fails. -/
theorem C2_amended_first_launch (env : Env) (s : State)
    (hcfg : env.configExists = false)
    (hdet : detect env = Except.ok s) :
    recoverBase s = some BaseState.firstLaunch
    ∧ (s.type = StateType.firstLaunch ∨ s.type = StateType.error)
    ∧ (checkDocker env = false → s.type = StateType.error) := by
  obtain ⟨checks, base, h1, h2, h3⟩ := detect_eq_ok hdet
  obtain ⟨hbc, hbe, hbr, hbt⟩ := classifyState_shape h2
  obtain ⟨hcc, hcd, _, _⟩ := computeChecks_fields h1
  have hcfg' : checks.configExists = false := by
    rw [hcc, checkConfig, hcfg]
  have hbase : classifyBase checks = BaseState.firstLaunch := by
    simp [classifyBase, hcfg']
  subst h3
  refine ⟨?_, ?_, ?_⟩
  · rw [recoverBase_applyErrors, hbr, hbase]
  · by_cases hde : detectErrors env checks = []
    · left
      rw [applyErrors_of_empty base hde, hbt, hbase]
      rfl
    · right
      rw [applyErrors_of_ne base hde]
  · intro hdock
    have hcd' : checks.dockerRunning = false := by rw [hcd, hdock]
    rw [applyErrors_of_ne base (detectErrors_ne_of_docker env hcd')]

/-- C2 witness: the amended claim evaluated at the concrete no-config,
daemon-down environment. -/
theorem C2_witness :
    recoverBase stateC2 = some BaseState.firstLaunch
    ∧ (stateC2.type = StateType.firstLaunch ∨ stateC2.type = StateType.error)
    ∧ (checkDocker envC2 = false → stateC2.type = StateType.error) :=
  C2_amended_first_launch envC2 stateC2 rfl rfl

/-- C7 counterexample: in a concrete environment whose artifacts `readdir`
rejects, the fault propagates out of `detect`, refuting "detect() never
raises for every combination of probe faults". -/
theorem C7_counterexample : detect envC7 = Except.error faultC7 := by
  rfl

/-- C7 (amended): the docker probes (`checkDocker`, `checkDeployment`)
demote a fault to a clean `false`, but a rejection inside the artifacts
probe (`readdir`/`stat`, which has no `try/catch`) propagates out of
`detect`. -/
theorem C7_amended_probe_isolation (env : Env) (f : Fault) :
    (env.dockerPing = Except.error f → checkDocker env = false)
    ∧ (env.listContainersAll = Except.error f → checkDeployment env = false)
    ∧ (env.artifactsDirExists = true → env.artifactsReaddir = Except.error f →
        detect env = Except.error f) := by
  refine ⟨?_, ?_, ?_⟩
  · intro h
    simp [checkDocker, h]
  · intro h
    simp [checkDeployment, h]
  · intro h1 h2
    have hca : checkArtifacts env = Except.error f := by
      simp [checkArtifacts, h1, h2]
    have hcc : computeChecks env = Except.error f := by
      simp [computeChecks, hca]
    simp [detect, hcc]

/-- C7 witness: the amended claim evaluated at the concrete faulting
environment. -/
theorem C7_witness :
    checkDocker envC7 = false ∧ checkDeployment envC7 = false ∧
      detect envC7 = Except.error faultC7 :=
  ⟨(C7_amended_probe_isolation envC7 faultC7).1 rfl,
   (C7_amended_probe_isolation envC7 faultC7).2.1 rfl,
   (C7_amended_probe_isolation envC7 faultC7).2.2 rfl rfl⟩

/-- C8: for every configuration, the detector's required-variable set is
exactly `{SESSION_SECRET}`, plus the Google pair iff OAuth is enabled, plus
`DATABASE_URL` iff the database kind is postgresql — no extras, no
omissions. -/
theorem C8_required_var_set (cfg : Config) (v : String) :
    v ∈ requiredVars cfg ↔
      (v = "SESSION_SECRET"
        ∨ (cfg.authGoogleEnabled = true ∧
            (v = "GOOGLE_CLIENT_ID" ∨ v = "GOOGLE_CLIENT_SECRET"))
        ∨ (cfg.database = Database.postgresql ∧ v = "DATABASE_URL")) := by
  unfold requiredVars
  cases hg : cfg.authGoogleEnabled <;> cases hd : cfg.database <;>
    (simp [hg, hd]; try tauto)

/-- C10: the env probe filters against the process environment only, and
with the `.env` file absent it reports an empty missing list — so an absent
`.env` file never yields a `missing-env-vars` error in the detected state,
whatever the process environment holds. -/
theorem C10_absent_env_file_no_missing_error (env : Env) (s : State)
    (hfile : env.envFileExists = false)
    (hdet : detect env = Except.ok s) :
    (checkEnv env).missing = [] ∧
      ∀ e ∈ s.errors, e.kind ≠ ErrorKind.missingEnvVars := by
  have hce : checkEnv env = { fileExists := false, valid := false, missing := [] } := by
    simp [checkEnv, hfile]
  obtain ⟨checks, base, h1, h2, h3⟩ := detect_eq_ok hdet
  obtain ⟨_, hbe, _, _⟩ := classifyState_shape h2
  obtain ⟨_, _, _, hcv⟩ := computeChecks_fields h1
  refine ⟨by rw [hce], ?_⟩
  intro e he hk
  have hmem : e ∈ detectErrors env checks := by
    subst h3
    by_cases hde : detectErrors env checks = []
    · rw [applyErrors_of_empty base hde, hbe] at he
      exact absurd he (List.not_mem_nil e)
    · rw [applyErrors_of_ne base hde] at he
      exact he
  have hlen := mem_detectErrors_missing hmem hk
  rw [hcv, hce] at hlen
  simp at hlen

/-- C10 witness: concrete environment with no `.env` file but a config
demanding OAuth and postgresql variables, none set in the process
environment. -/
theorem C10_witness :
    (checkEnv envC10).missing = [] ∧
      ∀ e ∈ stateC10.errors, e.kind ≠ ErrorKind.missingEnvVars :=
  C10_absent_env_file_no_missing_error envC10 stateC10 rfl rfl

/-- C3 counterexample: a concrete run in which steps 1–8 succeed, the
auto-commit flag is set and the step-9 commit fails: `run` rethrows the
commit error (no successful DeploymentResult) and a rollback IS attempted,
refuting "commit failure does not fail the deployment and does not trigger
a rollback". -/
theorem C3_counterexample :
    cfgC3.featuresAutoCommit = true
    ∧ preCapture cfgC3 envC3 = Except.ok { path := "artifacts/demo", type := "node" }
    ∧ envC3.startContainers = Except.ok ()
    ∧ verifyDeployment envC3 = Except.ok ()
    ∧ (run cfgC3 envC3).result = Except.error (DError.commitFailed "pre-commit hook failed")
    ∧ (run cfgC3 envC3).rollbackAttempts = 1 := by
  exact ⟨rfl, rfl, rfl, rfl, rfl, rfl⟩

/-- C3 (amended): a step-9 commit failure is fatal — the commit is awaited
inside the same try block as the rest of the pipeline, so `run` rethrows the
commit error, and when rollback state was captured at step 6 it also
triggers the single rollback attempt. -/
theorem C3_amended_commit_failure_fatal (cfg : Config) (env : DeployEnv)
    (a : Artifact) (m : String)
    (hauto : cfg.featuresAutoCommit = true)
    (hpre : preCapture cfg env = Except.ok a)
    (hstart : env.startContainers = Except.ok ())
    (hverify : verifyDeployment env = Except.ok ())
    (hcommit : env.commitOutcome = Except.error (DError.commitFailed m)) :
    (run cfg env).result = Except.error (DError.commitFailed m)
    ∧ (run cfg env).rollbackAttempts =
        (if (saveRollbackState env).isSome then 1 else 0) := by
  have hpost : postCapture cfg env = Except.error (DError.commitFailed m) := by
    simp [postCapture, hstart, hverify, hauto, hcommit]
  cases hrb : saveRollbackState env with
  | none => simp [run, hpre, hpost, hrb]
  | some rb => simp [run, hpre, hpost, hrb]

/-- C3 witness: the amended claim at the concrete commit-failure run. -/
theorem C3_witness :
    (run cfgC3 envC3).result = Except.error (DError.commitFailed "pre-commit hook failed")
    ∧ (run cfgC3 envC3).rollbackAttempts =
        (if (saveRollbackState envC3).isSome then 1 else 0) :=
  C3_amended_commit_failure_fatal cfgC3 envC3
    { path := "artifacts/demo", type := "node" } "pre-commit hook failed"
    rfl rfl rfl rfl rfl

/-- C4 counterexample: for a networked-database configuration the detector's
pathology rule requires `DATABASE_URL` but the orchestrator's step-1
validation does not, so the two required-variable sets differ, refuting
"checks exactly the same required-variable set — including DATABASE_URL". -/
theorem C4_counterexample :
    "DATABASE_URL" ∈ requiredVars cfgPg
    ∧ "DATABASE_URL" ∉ orchestratorRequired cfgPg
    ∧ orchestratorRequired cfgPg ≠ requiredVars cfgPg := by
  exact ⟨by decide, by decide, by decide⟩

/-- C4 (amended): the orchestrator's step-1 required set equals the
detector's set minus its `DATABASE_URL` clause (the orchestrator omits
`DATABASE_URL` even for the networked database kind); when step-1 fails on
environment variables, the single error carries exactly the full list of
missing variables (not just the first). -/
theorem C4_amended_env_validation (cfg : Config) (env : DeployEnv) :
    requiredVars cfg = orchestratorRequired cfg ++
      (if cfg.database = Database.postgresql then ["DATABASE_URL"] else [])
    ∧ (∀ missing,
        validateEnvironment cfg env = Except.error (DError.missingEnvVars missing) →
        missing = (orchestratorRequired cfg).filter (fun key => !env.processEnv key)
        ∧ missing ≠ []) := by
  constructor
  · unfold requiredVars orchestratorRequired
    cases hg : cfg.authGoogleEnabled <;> cases hd : cfg.database <;> simp [hd]
  · intro missing h
    unfold validateEnvironment at h
    cases hd : env.dockerPingOk with
    | false => simp [hd] at h
    | true =>
      simp only [hd, Bool.not_true] at h
      rw [if_neg (by simp)] at h
      split at h
      next hlen =>
        injection h with h
        injection h with h
        subst h
        exact ⟨rfl, List.length_pos.mp hlen⟩
      next =>
        split at h
        · split at h <;> simp at h
        · simp at h

/-- C4 witness: the amended claim at an OAuth-and-postgresql configuration
with only `SESSION_SECRET` set: step 1 reports exactly the Google pair. -/
theorem C4_witness :
    (requiredVars cfgC4 = orchestratorRequired cfgC4 ++
      (if cfgC4.database = Database.postgresql then ["DATABASE_URL"] else []))
    ∧ (["GOOGLE_CLIENT_ID", "GOOGLE_CLIENT_SECRET"] =
        (orchestratorRequired cfgC4).filter (fun key => !envC4.processEnv key)
      ∧ (["GOOGLE_CLIENT_ID", "GOOGLE_CLIENT_SECRET"] : List String) ≠ []) :=
  ⟨(C4_amended_env_validation cfgC4 envC4).1,
   (C4_amended_env_validation cfgC4 envC4).2
     ["GOOGLE_CLIENT_ID", "GOOGLE_CLIENT_SECRET"] rfl⟩

/-- C5: the verification step's outcome classification: a 404 first probe is
success; a first-attempt connection-refused followed by a retry the default
axios validation accepts is success; two consecutive connection-refused
results are fatal; any first response with status < 500 is success; a 5xx
first response is fatal irrespective of the retry probe (no retry). -/
theorem C5_health_check_policy (env : DeployEnv) :
    (∀ retry, verifyDeployment
        { env with healthProbe := .resolved 404, retryProbe := retry } = Except.ok ())
    ∧ (∀ status, axiosDefaultAccepts status = true →
        verifyDeployment
          { env with
            healthProbe := .netError (some "ECONNREFUSED")
            retryProbe := .resolved status } = Except.ok ())
    ∧ (verifyDeployment
        { env with
          healthProbe := .netError (some "ECONNREFUSED")
          retryProbe := .netError (some "ECONNREFUSED") } =
        Except.error DError.appNotResponding)
    ∧ (∀ status, status < 500 → ∀ retry,
        verifyDeployment
          { env with healthProbe := .resolved status, retryProbe := retry } =
          Except.ok ())
    ∧ (∀ status, 500 ≤ status → ∀ retry,
        verifyDeployment
          { env with healthProbe := .resolved status, retryProbe := retry } =
          Except.error (DError.serverReturnedStatus status)) := by
  refine ⟨fun retry => rfl, ?_, rfl, ?_, ?_⟩
  · intro status hs
    simp [verifyDeployment, hs]
  · intro status hs retry
    by_cases h200 : status = 200
    · simp [verifyDeployment, h200]
    · simp [verifyDeployment, h200, hs]
  · intro status hs retry
    have h200 : ¬(status = 200) := by omega
    have h500 : ¬(status < 500) := by omega
    simp [verifyDeployment, h200, h500]

/-- C5 witness: concrete probes for the hypothesis-bearing clauses (a 301
first response; a 503 first response with a healthy retry probe that must
not be consulted; a refused probe followed by a 204 retry). -/
theorem C5_witness :
    verifyDeployment
      { happyDeployEnv with
        healthProbe := AxiosOutcome.resolved 301
        retryProbe := AxiosOutcome.netError none } = Except.ok ()
    ∧ verifyDeployment
        { happyDeployEnv with
          healthProbe := AxiosOutcome.resolved 503
          retryProbe := AxiosOutcome.resolved 200 } =
        Except.error (DError.serverReturnedStatus 503)
    ∧ verifyDeployment
        { happyDeployEnv with
          healthProbe := AxiosOutcome.netError (some "ECONNREFUSED")
          retryProbe := AxiosOutcome.resolved 204 } = Except.ok () :=
  ⟨(C5_health_check_policy happyDeployEnv).2.2.2.1 301 (by omega)
      (AxiosOutcome.netError none),
   (C5_health_check_policy happyDeployEnv).2.2.2.2 503 (by omega)
      (AxiosOutcome.resolved 200),
   (C5_health_check_policy happyDeployEnv).2.1 204 (by decide)⟩

/-- C6: rollback gating: a failure in steps 1–5 (before capture) never
triggers a rollback; a failure in steps 7–9 after a successful capture
triggers exactly one rollback attempt; in both cases `run` surfaces the
original step error — a rollback failure (the stop outcome is arbitrary
here) never replaces it. -/
theorem C6_rollback_gating (cfg : Config) (env : DeployEnv) :
    (∀ e, preCapture cfg env = Except.error e →
        (run cfg env).rollbackAttempts = 0
        ∧ (run cfg env).result = Except.error e)
    ∧ (∀ a rb e, preCapture cfg env = Except.ok a →
        saveRollbackState env = some rb →
        postCapture cfg env = Except.error e →
        (run cfg env).rollbackAttempts = 1
        ∧ (run cfg env).result = Except.error e) := by
  constructor
  · intro e h
    simp [run, h]
  · intro a rb e h1 h2 h3
    simp [run, h1, h2, h3]

/-- C6 witness: verification fails with a 503 after a successful capture
while the rollback's container stop itself fails: one rollback attempt, and
the surfaced error is still the verification failure. -/
theorem C6_witness :
    (run localCfg envC6).rollbackAttempts = 1
    ∧ (run localCfg envC6).result = Except.error (DError.serverReturnedStatus 503) :=
  (C6_rollback_gating localCfg envC6).2
    { path := "artifacts/demo", type := "node" }
    { timestamp := 1700000000000, containers := [], commitHash := some "abc1234" }
    (DError.serverReturnedStatus 503) rfl rfl rfl

/-- C9: whenever the selected provider is the URL provider, step 2 always
fails: `fetchArtifact` calls `validate()` before `fetch()`, and the fresh
instance's `downloadedPath` is still null, so `validate()` throws. -/
theorem C9_url_provider_step2_always_fails (cfg : Config) (env : DeployEnv)
    (h : createProviderKind cfg env = Except.ok ProviderKind.url) :
    fetchArtifact cfg env = Except.error DError.artifactNotDownloadedYet := by
  unfold fetchArtifact
  rw [h]
  rfl

/-- C9 witness: the explicit `provider: 'url'` configuration. -/
theorem C9_witness :
    fetchArtifact cfgC9 happyDeployEnv = Except.error DError.artifactNotDownloadedYet :=
  C9_url_provider_step2_always_fails cfgC9 happyDeployEnv rfl

end EasyDeploy
